import Mathlib

/-!
A shallow embedding of the structured-element insertion core of the
psr_database library (src/src/database.cpp and src/src/result.cpp).

The SQLite engine is an external collaborator: metadata queries
(`sqlite_master`, `PRAGMA table_info`, `PRAGMA foreign_key_list`,
`SELECT id FROM t WHERE label = ?`) are modelled as lookups into a `DB`
record holding the engine's visible state, and mutating statements are
modelled as an emitted trace of `Stmt` values.  IEEE doubles never take
part in arithmetic in the modelled code, so the payload of a `Float64`
value is abstracted as its bit pattern (an `Int`).
-/

namespace Psr

/-- The `psr::Value` variant:
`std::variant<std::nullptr_t, int64_t, double, std::string,
std::vector<uint8_t>, std::vector<int64_t>, std::vector<double>,
std::vector<std::string>>`. -/
inductive Value where
  | vnull
  | vint (i : Int)
  | vfloat (bits : Int)
  | vtext (s : String)
  | vblob (b : List Nat)
  | vintArr (xs : List Int)
  | vfloatArr (xs : List Int)
  | vtextArr (xs : List String)
deriving DecidableEq, Repr

/-- Failures of the modelled code.  `runtimeError msg` is a thrown
`std::runtime_error(msg)`; `outOfRange msg` is a thrown `std::out_of_range`;
`oob` marks an out-of-bounds `std::vector::operator[]` access, which in the
C++ source is undefined behavior rather than a thrown error. -/
inductive DbError where
  | runtimeError (msg : String)
  | outOfRange (msg : String)
  | oob
deriving DecidableEq, Repr

/-- A mutating statement issued through `Database::execute`. -/
inductive Stmt where
  | insertStmt (table : String) (cols : List String) (vals : List Value)
  | beginStmt
  | commitStmt
  | rollbackStmt
deriving DecidableEq, Repr

/-- One row of `PRAGMA foreign_key_list`, after the extraction
`get_string(i).value_or("")` performed by `Database::get_foreign_keys`. -/
structure ForeignKeyInfo where
  target_table : String
  column : String
  target_column : String
deriving DecidableEq, Repr

/-- The engine-visible state of a connection, as consumed by the
element-creation core:
* `isOpen` — the `is_open()` flag;
* `master_tables` — table names in `sqlite_master`, in enumeration order;
* `table_info` — per table, the `PRAGMA table_info` rows as
  (column name, declared type) pairs in column order;
* `fk_list` — per table, the `PRAGMA foreign_key_list` rows;
* `label_rows` — for each (collection, label), the first column of the
  result of `SELECT id FROM collection WHERE label = ?`;
* `engine_rowid` — the rowid the engine reports via
  `sqlite3_last_insert_rowid` after the scalar INSERT of a
  `create_element` call (external engine behavior, taken as given). -/
structure DB where
  isOpen : Bool
  master_tables : List String
  table_info : List (String × List (String × String))
  fk_list : List (String × List ForeignKeyInfo)
  label_rows : List ((String × String) × List Value)
deriving DecidableEq, Repr

/-- Model of `sqlite3_last_insert_rowid` is engine state; the model carries the
value the engine would report after the scalar INSERT. -/
structure Engine where
  rowid : Int
deriving DecidableEq, Repr

/-- Model of `std::numeric_limits<int64_t>::min()`, the sentinel used by
`resolve_relation` for an empty label inside a label array. -/
def i64Min : Int := -(2 ^ 63)

/-- Loop with early throw, the shape of every `for` loop in the C++
source that may `throw` and otherwise accumulates state. -/
def foldE {σ α : Type} (f : σ → α → Except DbError σ) : σ → List α → Except DbError σ
  | s, [] => .ok s
  | s, a :: as =>
    match f s a with
    | .error e => .error e
    | .ok s2 => foldE f s2 as

/-- Loop with early throw that collects one result per element, the shape
of the C++ loops that `push_back` into a vector and may `throw`. -/
def mapE {α β : Type} (f : α → Except DbError β) : List α → Except DbError (List β)
  | [] => .ok []
  | a :: as =>
    match f a with
    | .error e => .error e
    | .ok b =>
      match mapE f as with
      | .error e => .error e
      | .ok bs => .ok (b :: bs)

/-- Model of `is_vector_value` (anonymous namespace of database.cpp). -/
def is_vector_value : Value → Bool
  | .vintArr _ => true
  | .vfloatArr _ => true
  | .vtextArr _ => true
  | _ => false

/-- Model of `to_scalar_value`: passes scalars through and throws on array values. -/
def to_scalar_value (v : Value) : Except DbError Value :=
  match v with
  | .vintArr _ => .error (.runtimeError "Cannot convert vector to scalar value")
  | .vfloatArr _ => .error (.runtimeError "Cannot convert vector to scalar value")
  | .vtextArr _ => .error (.runtimeError "Cannot convert vector to scalar value")
  | v => .ok v

/-- Model of `get_vector_size`: array length, `0` for any non-array value. -/
def get_vector_size : Value → Nat
  | .vintArr xs => xs.length
  | .vfloatArr xs => xs.length
  | .vtextArr xs => xs.length
  | _ => 0

/-- Model of `get_vector_element`: `arg[index]` on the underlying `std::vector`.
An out-of-range index is undefined behavior in the source, modelled as
the `oob` error; a non-array value throws `"Not a vector type"`. -/
def get_vector_element (v : Value) (index : Nat) : Except DbError Value :=
  match v with
  | .vintArr xs =>
    match xs.get? index with
    | some x => .ok (.vint x)
    | none => .error .oob
  | .vfloatArr xs =>
    match xs.get? index with
    | some x => .ok (.vfloat x)
    | none => .error .oob
  | .vtextArr xs =>
    match xs.get? index with
    | some x => .ok (.vtext x)
    | none => .error .oob
  | _ => .error (.runtimeError "Not a vector type")

/-- Whether `pre` is a prefix of `s`, computed structurally on the
character lists. -/
def str_starts_with (s pre : String) : Bool :=
  pre.data.isPrefixOf s.data

/-- Model of `Database::get_vector_tables`: names in `sqlite_master` matching
`LIKE '<collection>_vector_%'` (the `%`-suffix pattern is modelled as a
string-prefix test), or `{}` when the connection is not open. -/
def get_vector_tables (db : DB) (collection : String) : List String :=
  if db.isOpen then
    db.master_tables.filter (fun n => str_starts_with n (collection ++ "_vector_"))
  else []

/-- Model of `Database::get_set_tables`. -/
def get_set_tables (db : DB) (collection : String) : List String :=
  if db.isOpen then
    db.master_tables.filter (fun n => str_starts_with n (collection ++ "_set_"))
  else []

/-- Model of `Database::get_time_series_tables`. -/
def get_time_series_tables (db : DB) (collection : String) : List String :=
  if db.isOpen then
    db.master_tables.filter (fun n => str_starts_with n (collection ++ "_time_series_"))
  else []

/-- Model of `Database::get_table_columns`: column names from `PRAGMA table_info`,
or `{}` when the connection is not open or the table is unknown. -/
def get_table_columns (db : DB) (table : String) : List String :=
  if db.isOpen then
    ((db.table_info.lookup table).getD []).map Prod.fst
  else []

/-- Model of `Database::get_foreign_keys`: the `PRAGMA foreign_key_list` rows with
an empty source column filtered out, or `{}` when not open. -/
def get_foreign_keys (db : DB) (table : String) : List ForeignKeyInfo :=
  if db.isOpen then
    ((db.fk_list.lookup table).getD []).filter (fun fk => fk.column ≠ "")
  else []

/-- Model of `Database::get_column_type`: the declared type of the first
`PRAGMA table_info` row whose name matches, else `""`. -/
def get_column_type (db : DB) (table column : String) : String :=
  if db.isOpen then
    match ((db.table_info.lookup table).getD []).find? (fun p => p.1 = column) with
    | some p => p.2
    | none => ""
  else ""

/-- Model of `Database::get_element_id`: `SELECT id FROM collection WHERE label = ?`;
an empty result throws not-found, a first row whose id column is not an
integer throws invalid-id. -/
def get_element_id (db : DB) (collection label : String) : Except DbError Int :=
  if db.isOpen then
    match (db.label_rows.lookup (collection, label)).getD [] with
    | [] => .error (.runtimeError ("Element not found: " ++ label ++ " in " ++ collection))
    | v :: _ =>
      match v with
      | .vint i => .ok i
      | _ => .error (.runtimeError ("Invalid ID for element: " ++ label))
  else .error (.runtimeError "Database is not open")

/-- Model of `Database::validate_value_type`.  Returns `none` when the value is
accepted and `some e` for the thrown type-mismatch error.  (The C++
message wraps the column name in single quotes; the model leaves the
quotes out, keeping the column, expected and actual type names.) -/
def validate_value_type (db : DB) (table column : String) (value : Value) : Option DbError :=
  let col_type := get_column_type db table column
  if col_type = "" then none
  else if (get_foreign_keys db table).any (fun fk => fk.column = column) then none
  else
    match value with
    | .vnull => none
    | .vint _ => validate_scalar column col_type "INTEGER"
    | .vfloat _ => validate_scalar column col_type "REAL"
    | .vtext _ => validate_scalar column col_type "TEXT"
    | .vblob _ => validate_scalar column col_type "BLOB"
    | _ => none
where
  /-- The compatibility chain of `validate_value_type`: `valid` starts
  `true` and is only assigned for the four known declared types. -/
  validate_scalar (column col_type actual_type : String) : Option DbError :=
    let valid :=
      if col_type = "TEXT" then actual_type = "TEXT"
      else if col_type = "INTEGER" then actual_type = "INTEGER"
      else if col_type = "REAL" then actual_type = "REAL" || actual_type = "INTEGER"
      else if col_type = "BLOB" then actual_type = "BLOB"
      else true
    if valid then none
    else some (.runtimeError ("Type mismatch for column " ++ column ++ ": expected " ++
      col_type ++ " but got " ++ actual_type))

/-- The per-label body of the TextArray branch of
`Database::resolve_relation`: an empty label becomes the
`INT64_MIN` sentinel, any other label is looked up in the target table. -/
def resolve_label (db : DB) (target_table label : String) : Except DbError Int :=
  if label = "" then .ok i64Min
  else get_element_id db target_table label

/-- Model of `Database::resolve_relation`: when `column` is declared as a foreign
key of `table`, a Text value is resolved to the target id and a TextArray
to an IntArray of ids (empty labels becoming the sentinel); every other
shape, and every non-foreign-key column, passes through unchanged. -/
def resolve_relation (db : DB) (table column : String) (value : Value) : Except DbError Value :=
  match (get_foreign_keys db table).find? (fun fk => fk.column = column) with
  | some fk =>
    match value with
    | .vtext label =>
      match get_element_id db fk.target_table label with
      | .error e => .error e
      | .ok i => .ok (.vint i)
    | .vtextArr labels =>
      match mapE (resolve_label db fk.target_table) labels with
      | .error e => .error e
      | .ok ids => .ok (.vintArr ids)
    | v => .ok v
  | none => .ok value

/-- The `column -> backing table` map built by `Database::insert_vectors`
from the `_vector_` tables (excluding `id` and `vector_index`) and then
the `_set_` tables (excluding `id`).  `std::map::operator[]` overwrites,
so later writes shadow earlier ones; the model prepends and `lookup`
finds the most recent write first. -/
def column_to_table (db : DB) (collection : String) : List (String × String) :=
  let m1 := (get_vector_tables db collection).foldl (fun m table =>
    (get_table_columns db table).foldl (fun m col =>
      if col = "id" ∨ col = "vector_index" then m else (col, table) :: m) m) []
  (get_set_tables db collection).foldl (fun m table =>
    (get_table_columns db table).foldl (fun m col =>
      if col = "id" then m else (col, table) :: m) m) m1

/-- Insertion into the `std::map<std::string, std::vector<...>>` used to
group fields by table: buckets are kept sorted by table name (the map's
iteration order) and a field is appended to its bucket. -/
def mapGroupAdd (m : List (String × List (String × Value))) (k : String)
    (v : String × Value) : List (String × List (String × Value)) :=
  match m with
  | [] => [(k, [v])]
  | (k2, vs) :: rest =>
    if k = k2 then (k2, vs ++ [v]) :: rest
    else if k < k2 then (k, [v]) :: (k2, vs) :: rest
    else (k2, vs) :: mapGroupAdd rest k v

/-- The grouping loop of `Database::insert_vectors`: each vector field is
routed to its backing table, failing on a column unknown to every
candidate table. -/
def group_fields (c2t : List (String × String)) (fields : List (String × Value)) :
    Except DbError (List (String × List (String × Value))) :=
  foldE (fun acc p =>
    match c2t.lookup p.1 with
    | none => .error (.runtimeError ("Vector column not found in schema: " ++ p.1))
    | some t => .ok (mapGroupAdd acc t p)) [] fields

/-- One iteration of the size-validation loop of
`Database::insert_vectors`: `vec_size` is assigned from the current field
whenever it is still `0`, and any disagreement with a nonzero `vec_size`
throws. -/
def vec_size_step (table : String) (vec_size : Nat) (p : String × Value) :
    Except DbError Nat :=
  let sz := get_vector_size p.2
  if vec_size = 0 then .ok sz
  else if sz ≠ vec_size then
    .error (.runtimeError ("Vectors in same group must have same size: " ++ table))
  else .ok vec_size

/-- The size-validation loop of `Database::insert_vectors`, starting from
`vec_size = 0`. -/
def group_vec_size (table : String) (fields : List (String × Value)) : Except DbError Nat :=
  foldE (vec_size_step table) 0 fields

/-- The relation-resolution loop of `Database::insert_vectors`, scoped to
one backing table. -/
def resolve_fields (db : DB) (table : String) (fields : List (String × Value)) :
    Except DbError (List (String × Value)) :=
  mapE (fun p =>
    match resolve_relation db table p.1 p.2 with
    | .error e => .error e
    | .ok v => .ok (p.1, v)) fields

/-- The bind-time sentinel translation of `Database::insert_vectors`: an
Int64 cell equal to `INT64_MIN` is bound as Null. -/
def bind_cell (elem : Value) : Value :=
  match elem with
  | .vint v => if v = i64Min then .vnull else .vint v
  | e => e

/-- One iteration of the per-index insert loop of
`Database::insert_vectors`: the INSERT for row `i` binds the element id
(plus `vector_index = i + 1` for a vector table), then each resolved
field's `i`-th element after sentinel translation. -/
def row_for_index (is_set : Bool) (table : String) (element_id : Int)
    (resolved_fields : List (String × Value)) (i : Nat) : Except DbError Stmt :=
  match mapE (fun p =>
      match get_vector_element p.2 i with
      | .error e => .error e
      | .ok elem => .ok (bind_cell elem)) resolved_fields with
  | .error e => .error e
  | .ok cells =>
    let base_cols := if is_set then ["id"] else ["id", "vector_index"]
    let base_vals : List Value :=
      if is_set then [.vint element_id] else [.vint element_id, .vint (Int.ofNat i + 1)]
    .ok (.insertStmt table (base_cols ++ resolved_fields.map Prod.fst) (base_vals ++ cells))

/-- The per-index insert loop of `Database::insert_vectors`, emitting the
statements executed before any error. -/
def emit_rows (is_set : Bool) (table : String) (element_id : Int)
    (resolved_fields : List (String × Value)) : List Nat → List Stmt × Option DbError
  | [] => ([], none)
  | i :: rest =>
    match row_for_index is_set table element_id resolved_fields i with
    | .error e => ([], some e)
    | .ok st =>
      let (sts, err) := emit_rows is_set table element_id resolved_fields rest
      (st :: sts, err)

/-- The per-group body of `Database::insert_vectors`: validate sizes,
skip an all-empty group, resolve relations, then insert one row per
index. -/
def insert_group (db : DB) (element_id : Int) (is_set : Bool) (table : String)
    (fields : List (String × Value)) : List Stmt × Option DbError :=
  match group_vec_size table fields with
  | .error e => ([], some e)
  | .ok 0 => ([], none)
  | .ok vec_size =>
    match resolve_fields db table fields with
    | .error e => ([], some e)
    | .ok resolved => emit_rows is_set table element_id resolved (List.range vec_size)

/-- The group iteration of `Database::insert_vectors`, in the sorted
order of the grouping map, concatenating the emitted statements and
stopping at the first error. -/
def insert_groups (db : DB) (collection : String) (element_id : Int) :
    List (String × List (String × Value)) → List Stmt × Option DbError
  | [] => ([], none)
  | (table, fields) :: rest =>
    let is_set := (get_set_tables db collection).contains table
    let (sts, err) := insert_group db element_id is_set table fields
    match err with
    | some e => (sts, some e)
    | none =>
      let (sts2, err2) := insert_groups db collection element_id rest
      (sts ++ sts2, err2)

/-- Model of `Database::insert_vectors`: result is the trace of executed INSERTs
together with the error, if any, that aborted the call. -/
def insert_vectors (db : DB) (collection : String) (element_id : Int)
    (vector_fields : List (String × Value)) : List Stmt × Option DbError :=
  if vector_fields.isEmpty then ([], none)
  else
    match group_fields (column_to_table db collection) vector_fields with
    | .error e => ([], some e)
    | .ok groups => insert_groups db collection element_id groups

/-- Model of `psr::TimeSeries` is a `std::map<std::string, std::vector<Value>>`;
the model carries its entries in the map's (sorted, duplicate-free)
iteration order. -/
abbrev TimeSeries := List (String × List Value)

/-- One cell of a time-series INSERT: `col_values[i]` (out of range is
C++ undefined behavior, modelled as `oob`) passed through
`to_scalar_value`. -/
def ts_cell (col_values : List Value) (i : Nat) : Except DbError Value :=
  match col_values.get? i with
  | none => .error .oob
  | some v => to_scalar_value v

/-- The per-index insert loop of `Database::insert_time_series` for one
series: the INSERT for row `i` binds the element id then each column's
`i`-th value. -/
def ts_rows (table : String) (element_id : Int) (data : TimeSeries) :
    List Nat → List Stmt × Option DbError
  | [] => ([], none)
  | i :: rest =>
    match mapE (fun p => ts_cell p.2 i) data with
    | .error e => ([], some e)
    | .ok cells =>
      let st := Stmt.insertStmt table ("id" :: data.map Prod.fst) (.vint element_id :: cells)
      let (sts, err) := ts_rows table element_id data rest
      (st :: sts, err)

/-- The per-group body of `Database::insert_time_series`: skip a series
with no columns; require the backing table to exist; take the row count
from the first column; skip when it is zero; require every column to
share it; then insert one row per index. -/
def insert_series_group (db : DB) (collection : String) (element_id : Int)
    (group : String) (data : TimeSeries) : List Stmt × Option DbError :=
  if data.isEmpty then ([], none)
  else
    let table := collection ++ "_time_series_" ++ group
    if (get_time_series_tables db collection).contains table then
      let row_count := match data with
        | [] => 0
        | p :: _ => p.2.length
      if row_count = 0 then ([], none)
      else if data.any (fun p => p.2.length ≠ row_count) then
        ([], some (.runtimeError "Time series columns must have same length"))
      else ts_rows table element_id data (List.range row_count)
    else ([], some (.runtimeError ("Time series group not found: " ++ group)))

/-- The group iteration of `Database::insert_time_series`, in the map's
iteration order. -/
def insert_series_groups (db : DB) (collection : String) (element_id : Int) :
    List (String × TimeSeries) → List Stmt × Option DbError
  | [] => ([], none)
  | (group, data) :: rest =>
    let (sts, err) := insert_series_group db collection element_id group data
    match err with
    | some e => (sts, some e)
    | none =>
      let (sts2, err2) := insert_series_groups db collection element_id rest
      (sts ++ sts2, err2)

/-- Model of `Database::insert_time_series`. -/
def insert_time_series (db : DB) (collection : String) (element_id : Int)
    (time_series : List (String × TimeSeries)) : List Stmt × Option DbError :=
  if time_series.isEmpty then ([], none)
  else insert_series_groups db collection element_id time_series

/-- Model of `Database::begin_transaction` = `execute("BEGIN TRANSACTION")`. -/
def begin_transaction (db : DB) : List Stmt × Option DbError :=
  if db.isOpen then ([.beginStmt], none)
  else ([], some (.runtimeError "Database is not open"))

/-- Model of `Database::commit` = `execute("COMMIT")`. -/
def commit (db : DB) : List Stmt × Option DbError :=
  if db.isOpen then ([.commitStmt], none)
  else ([], some (.runtimeError "Database is not open"))

/-- Model of `Database::rollback` = `execute("ROLLBACK")`. -/
def rollback (db : DB) : List Stmt × Option DbError :=
  if db.isOpen then ([.rollbackStmt], none)
  else ([], some (.runtimeError "Database is not open"))

/-- Model of `Database::last_insert_rowid`: `0` when the connection is not open,
otherwise the engine's reported rowid. -/
def last_insert_rowid (db : DB) (engine : Engine) : Int :=
  if db.isOpen then engine.rowid else 0

/-- One iteration of the classification loop of
`Database::create_element`: an array-valued field is collected as a
vector field; a scalar field is type-checked and relation-resolved
(either step may throw) and collected in order. -/
def classify_step (db : DB) (table : String)
    (acc : List (String × Value) × List (String × Value)) (p : String × Value) :
    Except DbError (List (String × Value) × List (String × Value)) :=
  if is_vector_value p.2 then .ok (acc.1, acc.2 ++ [p])
  else
    match validate_value_type db table p.1 p.2 with
    | some e => .error e
    | none =>
      match resolve_relation db table p.1 p.2 with
      | .error e => .error e
      | .ok v => .ok (acc.1 ++ [(p.1, v)], acc.2)

/-- The classification loop of `Database::create_element`, returning the
(resolved) scalar fields and the vector fields, each in input order. -/
def classify_fields (db : DB) (table : String) (fields : List (String × Value)) :
    Except DbError (List (String × Value) × List (String × Value)) :=
  foldE (classify_step db table) ([], []) fields

/-- Model of `Database::create_element`: argument checks, classification, the
scalar INSERT, then the vector and time-series phases, returning the
trace of executed statements and either the element id or the error that
aborted the call.  No transaction statement is ever issued. -/
def create_element (db : DB) (engine : Engine) (table : String)
    (fields : List (String × Value)) (time_series : List (String × TimeSeries)) :
    List Stmt × Except DbError Int :=
  if db.isOpen then
    if table = "" then ([], .error (.runtimeError "Table name cannot be empty"))
    else if fields.isEmpty then ([], .error (.runtimeError "Fields cannot be empty"))
    else
      match classify_fields db table fields with
      | .error e => ([], .error e)
      | .ok (scalar_fields, vector_fields) =>
        if scalar_fields.isEmpty then
          ([], .error (.runtimeError "At least one scalar field is required"))
        else
          match mapE (fun p => to_scalar_value p.2) scalar_fields with
          | .error e => ([], .error e)
          | .ok values =>
            let scalar_stmt := Stmt.insertStmt table (scalar_fields.map Prod.fst) values
            let element_id := last_insert_rowid db engine
            let (vsts, verr) := insert_vectors db table element_id vector_fields
            match verr with
            | some e => (scalar_stmt :: vsts, .error e)
            | none =>
              let (tsts, terr) := insert_time_series db table element_id time_series
              match terr with
              | some e => (scalar_stmt :: (vsts ++ tsts), .error e)
              | none => (scalar_stmt :: (vsts ++ tsts), .ok element_id)
  else ([], .error (.runtimeError "Database is not open"))

/-- Model of `psr::Row` (result.cpp): an ordered sequence of `Value`. -/
structure Row where
  values : List Value
deriving DecidableEq, Repr

/-- Model of `Row::column_count`. -/
def Row.column_count (r : Row) : Nat := r.values.length

/-- Model of `Row::operator[]`: throws `std::out_of_range` for an invalid index. -/
def Row.op_index (r : Row) (index : Nat) : Except DbError Value :=
  if index ≥ r.values.length then .error (.outOfRange "Column index out of range")
  else
    match r.values.get? index with
    | some v => .ok v
    | none => .error (.outOfRange "Column index out of range")

/-- Model of `Row::is_null`: `true` for an out-of-range index or a Null cell. -/
def Row.is_null (r : Row) (index : Nat) : Bool :=
  if index ≥ r.values.length then true
  else
    match r.values.get? index with
    | some .vnull => true
    | _ => false

/-- Model of `Row::get_int`: `nullopt` for an out-of-range index, a Null cell or a
cell of a different kind. -/
def Row.get_int (r : Row) (index : Nat) : Option Int :=
  if index ≥ r.values.length || r.is_null index then none
  else
    match r.values.get? index with
    | some (.vint v) => some v
    | _ => none

/-- Model of `Row::get_double`. -/
def Row.get_double (r : Row) (index : Nat) : Option Int :=
  if index ≥ r.values.length || r.is_null index then none
  else
    match r.values.get? index with
    | some (.vfloat v) => some v
    | _ => none

/-- Model of `Row::get_string`. -/
def Row.get_string (r : Row) (index : Nat) : Option String :=
  if index ≥ r.values.length || r.is_null index then none
  else
    match r.values.get? index with
    | some (.vtext v) => some v
    | _ => none

/-- Model of `Row::get_blob`. -/
def Row.get_blob (r : Row) (index : Nat) : Option (List Nat) :=
  if index ≥ r.values.length || r.is_null index then none
  else
    match r.values.get? index with
    | some (.vblob v) => some v
    | _ => none

/-- Total description of `get_vector_element` for in-range indices, used
in theorem statements (the default is never reached when `i` is below the
array length). -/
def cell_at (v : Value) (i : Nat) : Value :=
  match v with
  | .vintArr xs => .vint (xs.getD i 0)
  | .vfloatArr xs => .vfloat (xs.getD i 0)
  | .vtextArr xs => .vtext (xs.getD i "")
  | _ => .vnull

/-- Description of the INSERT that `insert_vectors` executes for row `i`
of one group: the element id (plus the 1-based `vector_index` for a
vector table), then each resolved field's `i`-th element after sentinel
translation. -/
def vector_row (is_set : Bool) (table : String) (element_id : Int)
    (resolved_fields : List (String × Value)) (i : Nat) : Stmt :=
  .insertStmt table
    ((if is_set then ["id"] else ["id", "vector_index"]) ++ resolved_fields.map Prod.fst)
    ((if is_set then [.vint element_id] else [.vint element_id, .vint (Int.ofNat i + 1)]) ++
      resolved_fields.map (fun p => bind_cell (cell_at p.2 i)))

/-- Whether a statement is a single-row INSERT (as opposed to a
transaction-control statement). -/
def Stmt.is_insert : Stmt → Bool
  | .insertStmt _ _ _ => true
  | _ => false

section Lemmas

lemma mapE_length {α β : Type} {f : α → Except DbError β} :
    ∀ {xs : List α} {ys : List β}, mapE f xs = .ok ys → ys.length = xs.length := by
  intro xs
  induction xs with
  | nil =>
    intro ys h
    simp only [mapE] at h
    cases h
    rfl
  | cons a as ih =>
    intro ys h
    simp only [mapE] at h
    cases hfa : f a with
    | error e => rw [hfa] at h; cases h
    | ok b =>
      rw [hfa] at h
      cases hrest : mapE f as with
      | error e => rw [hrest] at h; cases h
      | ok bs =>
        rw [hrest] at h
        cases h
        simp [ih hrest]

lemma mapE_get? {α β : Type} {f : α → Except DbError β} :
    ∀ {xs : List α} {ys : List β}, mapE f xs = .ok ys →
      ∀ k a, xs.get? k = some a → ∃ b, ys.get? k = some b ∧ f a = .ok b := by
  intro xs
  induction xs with
  | nil =>
    intro ys h k a hk
    simp at hk
  | cons x as ih =>
    intro ys h k a hk
    simp only [mapE] at h
    cases hfa : f x with
    | error e => rw [hfa] at h; cases h
    | ok b =>
      rw [hfa] at h
      cases hrest : mapE f as with
      | error e => rw [hrest] at h; cases h
      | ok bs =>
        rw [hrest] at h
        cases h
        cases k with
        | zero =>
          rw [List.get?_cons_zero] at hk
          cases hk
          exact ⟨b, rfl, hfa⟩
        | succ k =>
          rw [List.get?_cons_succ] at hk
          obtain ⟨b2, hb2, hfb2⟩ := ih hrest k a hk
          exact ⟨b2, by rw [List.get?_cons_succ]; exact hb2, hfb2⟩

lemma mapE_mem {α β : Type} {f : α → Except DbError β} :
    ∀ {xs : List α} {ys : List β}, mapE f xs = .ok ys →
      ∀ b ∈ ys, ∃ a ∈ xs, f a = .ok b := by
  intro xs
  induction xs with
  | nil =>
    intro ys h b hb
    simp only [mapE] at h
    cases h
    simp at hb
  | cons x as ih =>
    intro ys h b hb
    simp only [mapE] at h
    cases hfa : f x with
    | error e => rw [hfa] at h; cases h
    | ok b0 =>
      rw [hfa] at h
      cases hrest : mapE f as with
      | error e => rw [hrest] at h; cases h
      | ok bs =>
        rw [hrest] at h
        cases h
        rcases List.mem_cons.mp hb with hb | hb
        · exact ⟨x, List.mem_cons_self x as, hb ▸ hfa⟩
        · obtain ⟨a, ha, hfa2⟩ := ih hrest b hb
          exact ⟨a, List.mem_cons_of_mem x ha, hfa2⟩

lemma mapE_eq_map {α β : Type} {f : α → Except DbError β} {g : α → β} :
    ∀ {xs : List α}, (∀ a ∈ xs, f a = .ok (g a)) → mapE f xs = .ok (xs.map g) := by
  intro xs
  induction xs with
  | nil => intro _; simp [mapE]
  | cons a as ih =>
    intro h
    simp only [mapE]
    rw [h a (List.mem_cons_self a as), ih (fun a2 ha2 => h a2 (List.mem_cons_of_mem a ha2))]
    simp

lemma mapE_error_mem {α β : Type} {f : α → Except DbError β} :
    ∀ {xs : List α} {e : DbError}, mapE f xs = .error e → ∃ a ∈ xs, f a = .error e := by
  intro xs
  induction xs with
  | nil =>
    intro e h
    simp only [mapE] at h
    cases h
  | cons x as ih =>
    intro e h
    simp only [mapE] at h
    cases hfa : f x with
    | error e2 =>
      rw [hfa] at h
      cases h
      exact ⟨x, List.mem_cons_self x as, hfa⟩
    | ok b =>
      rw [hfa] at h
      cases hrest : mapE f as with
      | error e2 =>
        rw [hrest] at h
        cases h
        obtain ⟨a, ha, hfa2⟩ := ih hrest
        exact ⟨a, List.mem_cons_of_mem x ha, hfa2⟩
      | ok bs =>
        rw [hrest] at h
        cases h

lemma mapE_error_of_mem {α β : Type} {f : α → Except DbError β} :
    ∀ {xs : List α} {a : α} {e : DbError}, a ∈ xs → f a = .error e →
      ∃ e2, mapE f xs = .error e2 ∧ ∃ a2 ∈ xs, f a2 = .error e2 := by
  intro xs
  induction xs with
  | nil =>
    intro a e ha _
    simp at ha
  | cons x as ih =>
    intro a e ha hfa
    cases hfx : f x with
    | error e2 =>
      refine ⟨e2, ?_, x, List.mem_cons_self x as, hfx⟩
      simp only [mapE]
      rw [hfx]
    | ok b =>
      have has : a ∈ as := by
        rcases List.mem_cons.mp ha with h | h
        · subst h; rw [hfx] at hfa; cases hfa
        · exact h
      obtain ⟨e2, hmap, a2, ha2, hfa2⟩ := ih has hfa
      refine ⟨e2, ?_, a2, List.mem_cons_of_mem x ha2, hfa2⟩
      simp only [mapE]
      rw [hfx, hmap]

lemma foldE_inv {σ α : Type} {f : σ → α → Except DbError σ} {P : σ → Prop}
    (hstep : ∀ s a s2, P s → f s a = .ok s2 → P s2) :
    ∀ {xs : List α} {s s2 : σ}, P s → foldE f s xs = .ok s2 → P s2 := by
  intro xs
  induction xs with
  | nil =>
    intro s s2 hs h
    simp only [foldE] at h
    cases h
    exact hs
  | cons a as ih =>
    intro s s2 hs h
    simp only [foldE] at h
    cases hfa : f s a with
    | error e => rw [hfa] at h; cases h
    | ok s3 =>
      rw [hfa] at h
      exact ih (hstep s a s3 hs hfa) h

lemma get_vector_element_ok {v : Value} {i : Nat} (h : i < get_vector_size v) :
    get_vector_element v i = .ok (cell_at v i) := by
  cases v <;> simp [get_vector_size] at h <;>
    simp [get_vector_element, cell_at, List.getElem?_eq_getElem h,
      List.getD_eq_getElem?_getD]

lemma resolve_relation_size {db : DB} {table column : String} {v v2 : Value}
    (h : resolve_relation db table column v = .ok v2) :
    get_vector_size v2 = get_vector_size v := by
  cases hfk : (get_foreign_keys db table).find? (fun fk => fk.column = column) with
  | none =>
    simp only [resolve_relation, hfk] at h
    cases h
    rfl
  | some fk =>
    cases v with
    | vtext label =>
      simp only [resolve_relation, hfk] at h
      cases hid : get_element_id db fk.target_table label with
      | error e => simp only [hid] at h; simp at h
      | ok i =>
        simp only [hid] at h
        cases h
        rfl
    | vtextArr labels =>
      simp only [resolve_relation, hfk] at h
      cases hm : mapE (resolve_label db fk.target_table) labels with
      | error e => simp only [hm] at h; simp at h
      | ok ids =>
        simp only [hm] at h
        cases h
        simpa [get_vector_size] using mapE_length hm
    | vnull => simp only [resolve_relation, hfk] at h; cases h; rfl
    | vint i => simp only [resolve_relation, hfk] at h; cases h; rfl
    | vfloat x => simp only [resolve_relation, hfk] at h; cases h; rfl
    | vblob b => simp only [resolve_relation, hfk] at h; cases h; rfl
    | vintArr xs => simp only [resolve_relation, hfk] at h; cases h; rfl
    | vfloatArr xs => simp only [resolve_relation, hfk] at h; cases h; rfl

lemma resolve_relation_intArr {db : DB} {table column : String} {xs : List Int} :
    resolve_relation db table column (.vintArr xs) = .ok (.vintArr xs) := by
  unfold resolve_relation
  cases hfk : (get_foreign_keys db table).find? (fun fk => fk.column = column) <;> simp

lemma vec_size_step_const {table : String} {n : Nat} {p : String × Value}
    (hp : get_vector_size p.2 = n) : vec_size_step table n p = .ok n := by
  by_cases hn : n = 0
  · subst hn; simp [vec_size_step, hp]
  · simp [vec_size_step, hp, hn]

lemma group_vec_size_from {table : String} {n : Nat} :
    ∀ {fields : List (String × Value)}, (∀ p ∈ fields, get_vector_size p.2 = n) →
      foldE (vec_size_step table) n fields = .ok n := by
  intro fields
  induction fields with
  | nil => intro _; simp [foldE]
  | cons p rest ih =>
    intro h
    simp only [foldE]
    rw [vec_size_step_const (h p (List.mem_cons_self p rest))]
    exact ih (fun q hq => h q (List.mem_cons_of_mem p hq))

lemma group_vec_size_const {table : String} {fields : List (String × Value)} {n : Nat}
    (hne : fields ≠ []) (h : ∀ p ∈ fields, get_vector_size p.2 = n) :
    group_vec_size table fields = .ok n := by
  unfold group_vec_size
  cases fields with
  | nil => exact absurd rfl hne
  | cons p rest =>
    have hp : get_vector_size p.2 = n := h p (List.mem_cons_self p rest)
    simp only [foldE]
    rw [show vec_size_step table 0 p = .ok n from by simp [vec_size_step, hp]]
    exact group_vec_size_from (fun q hq => h q (List.mem_cons_of_mem p hq))

lemma row_for_index_ok {is_set : Bool} {table : String} {element_id : Int}
    {resolved : List (String × Value)} {n i : Nat}
    (h : ∀ p ∈ resolved, get_vector_size p.2 = n) (hi : i < n) :
    row_for_index is_set table element_id resolved i =
      .ok (vector_row is_set table element_id resolved i) := by
  unfold row_for_index
  rw [mapE_eq_map (g := fun p => bind_cell (cell_at p.2 i))]
  · rfl
  · intro p hp
    rw [get_vector_element_ok (by rw [h p hp]; exact hi)]

lemma emit_rows_ok {is_set : Bool} {table : String} {element_id : Int}
    {resolved : List (String × Value)} {n : Nat}
    (h : ∀ p ∈ resolved, get_vector_size p.2 = n) :
    ∀ {idxs : List Nat}, (∀ i ∈ idxs, i < n) →
      emit_rows is_set table element_id resolved idxs =
        (idxs.map (vector_row is_set table element_id resolved), none) := by
  intro idxs
  induction idxs with
  | nil => intro _; simp [emit_rows]
  | cons i rest ih =>
    intro hidx
    simp only [emit_rows]
    rw [row_for_index_ok h (hidx i (List.mem_cons_self i rest)),
      ih (fun j hj => hidx j (List.mem_cons_of_mem i hj))]
    rfl

lemma resolve_fields_sizes {db : DB} {table : String}
    {fields resolved : List (String × Value)} {n : Nat}
    (hres : resolve_fields db table fields = .ok resolved)
    (hsz : ∀ p ∈ fields, get_vector_size p.2 = n) :
    ∀ q ∈ resolved, get_vector_size q.2 = n := by
  intro q hq
  obtain ⟨p, hp, hstep⟩ := mapE_mem hres q hq
  cases hrr : resolve_relation db table p.1 p.2 with
  | error e => rw [hrr] at hstep; cases hstep
  | ok v =>
    rw [hrr] at hstep
    cases hstep
    rw [resolve_relation_size hrr]
    exact hsz p hp

lemma insert_group_ok {db : DB} {element_id : Int} {is_set : Bool} {table : String}
    {fields resolved : List (String × Value)} {n : Nat}
    (hne : fields ≠ []) (hsz : ∀ p ∈ fields, get_vector_size p.2 = n) (hn : 0 < n)
    (hres : resolve_fields db table fields = .ok resolved) :
    insert_group db element_id is_set table fields =
      ((List.range n).map (vector_row is_set table element_id resolved), none) := by
  unfold insert_group
  rw [group_vec_size_const hne hsz]
  cases n with
  | zero => exact absurd hn (by simp)
  | succ m =>
    simp only [hres]
    exact emit_rows_ok (resolve_fields_sizes hres hsz) (fun i hi => List.mem_range.mp hi)

lemma insert_group_zero {db : DB} {element_id : Int} {is_set : Bool} {table : String}
    {fields : List (String × Value)}
    (hsz : ∀ p ∈ fields, get_vector_size p.2 = 0) :
    insert_group db element_id is_set table fields = ([], none) := by
  cases fields with
  | nil => simp [insert_group, group_vec_size, foldE]
  | cons p rest =>
    simp only [insert_group]
    rw [group_vec_size_const (by simp) hsz]

lemma mapGroupAdd_ne_nil {m : List (String × List (String × Value))} {k : String}
    {v : String × Value} (h : ∀ g ∈ m, g.2 ≠ []) :
    ∀ g ∈ mapGroupAdd m k v, g.2 ≠ [] := by
  induction m with
  | nil =>
    intro g hg
    simp [mapGroupAdd] at hg
    subst hg
    simp
  | cons b rest ih =>
    intro g hg
    obtain ⟨k2, vs⟩ := b
    simp only [mapGroupAdd] at hg
    by_cases hk : k = k2
    · rw [if_pos hk] at hg
      rcases List.mem_cons.mp hg with h2 | h2
      · subst h2; simp
      · exact h _ (List.mem_cons_of_mem _ h2)
    · rw [if_neg hk] at hg
      by_cases hlt : k < k2
      · rw [if_pos hlt] at hg
        rcases List.mem_cons.mp hg with h2 | h2
        · subst h2; simp
        · exact h _ h2
      · rw [if_neg hlt] at hg
        rcases List.mem_cons.mp hg with h2 | h2
        · subst h2
          exact h _ (List.mem_cons_self _ _)
        · exact ih (fun g2 hg2 => h g2 (List.mem_cons_of_mem _ hg2)) g h2

lemma group_fields_ne_nil {c2t : List (String × String)}
    {fs : List (String × Value)} {gs : List (String × List (String × Value))}
    (h : group_fields c2t fs = .ok gs) : ∀ g ∈ gs, g.2 ≠ [] := by
  refine foldE_inv (P := fun acc => ∀ g ∈ acc, g.2 ≠ []) ?_ (by simp) h
  intro s p s2 hs hstep
  cases hl : c2t.lookup p.1 with
  | none => rw [hl] at hstep; cases hstep
  | some t =>
    rw [hl] at hstep
    cases hstep
    exact mapGroupAdd_ne_nil hs

lemma insert_groups_single {db : DB} {collection : String} {element_id : Int}
    {table : String} {fields : List (String × Value)} :
    insert_groups db collection element_id [(table, fields)] =
      insert_group db element_id ((get_set_tables db collection).contains table)
        table fields := by
  simp only [insert_groups]
  cases hg : insert_group db element_id ((get_set_tables db collection).contains table)
      table fields with
  | mk sts err =>
    cases err <;> simp

lemma insert_vectors_single_ok {db : DB} {collection : String} {element_id : Int}
    {vector_fields fields resolved : List (String × Value)} {table : String} {n : Nat}
    (hgroup : group_fields (column_to_table db collection) vector_fields =
      .ok [(table, fields)])
    (hsz : ∀ p ∈ fields, get_vector_size p.2 = n)
    (hres : resolve_fields db table fields = .ok resolved)
    (hn : 0 < n) :
    insert_vectors db collection element_id vector_fields =
      ((List.range n).map (vector_row ((get_set_tables db collection).contains table)
        table element_id resolved), none) := by
  have hvf : vector_fields.isEmpty = false := by
    cases vector_fields with
    | nil => simp [group_fields, foldE] at hgroup
    | cons a as => rfl
  have hfields : fields ≠ [] := group_fields_ne_nil hgroup (table, fields) (by simp)
  simp only [insert_vectors, hvf, Bool.false_eq_true, if_false, hgroup]
  rw [insert_groups_single, insert_group_ok hfields hsz hn hres]

lemma row_for_index_insert {is_set : Bool} {table : String} {element_id : Int}
    {resolved : List (String × Value)} {i : Nat} {st : Stmt}
    (h : row_for_index is_set table element_id resolved i = .ok st) :
    st.is_insert = true := by
  simp only [row_for_index] at h
  cases hm : mapE (fun p =>
      match get_vector_element p.2 i with
      | .error e => .error e
      | .ok elem => .ok (bind_cell elem)) resolved with
  | error e => rw [hm] at h; cases h
  | ok cells =>
    rw [hm] at h
    cases h
    rfl

lemma emit_rows_inserts {is_set : Bool} {table : String} {element_id : Int}
    {resolved : List (String × Value)} :
    ∀ {idxs : List Nat},
      ∀ s ∈ (emit_rows is_set table element_id resolved idxs).1, s.is_insert = true := by
  intro idxs
  induction idxs with
  | nil => intro s hs; simp [emit_rows] at hs
  | cons i rest ih =>
    intro s hs
    simp only [emit_rows] at hs
    cases hr : row_for_index is_set table element_id resolved i with
    | error e => rw [hr] at hs; simp at hs
    | ok st =>
      rw [hr] at hs
      cases he : emit_rows is_set table element_id resolved rest with
      | mk sts err =>
        rw [he] at hs
        simp at hs
        rcases hs with hs | hs
        · subst hs; exact row_for_index_insert hr
        · exact ih s (by rw [he]; exact hs)

lemma insert_group_inserts {db : DB} {element_id : Int} {is_set : Bool} {table : String}
    {fields : List (String × Value)} :
    ∀ s ∈ (insert_group db element_id is_set table fields).1, s.is_insert = true := by
  intro s hs
  simp only [insert_group] at hs
  cases hg : group_vec_size table fields with
  | error e => rw [hg] at hs; simp at hs
  | ok vsz =>
    rw [hg] at hs
    cases vsz with
    | zero => simp at hs
    | succ m =>
      cases hr : resolve_fields db table fields with
      | error e => rw [hr] at hs; simp at hs
      | ok resolved =>
        rw [hr] at hs
        exact emit_rows_inserts s hs

lemma insert_groups_inserts {db : DB} {collection : String} {element_id : Int} :
    ∀ {groups : List (String × List (String × Value))},
      ∀ s ∈ (insert_groups db collection element_id groups).1, s.is_insert = true := by
  intro groups
  induction groups with
  | nil => intro s hs; simp [insert_groups] at hs
  | cons g rest ih =>
    intro s hs
    obtain ⟨table, fields⟩ := g
    simp only [insert_groups] at hs
    cases hg : insert_group db element_id
        ((get_set_tables db collection).contains table) table fields with
    | mk sts err =>
      rw [hg] at hs
      cases err with
      | some e =>
        simp at hs
        exact insert_group_inserts s (by rw [hg]; exact hs)
      | none =>
        cases hrest : insert_groups db collection element_id rest with
        | mk sts2 err2 =>
          rw [hrest] at hs
          simp at hs
          rcases hs with hs | hs
          · exact insert_group_inserts s (by rw [hg]; exact hs)
          · exact ih s (by rw [hrest]; exact hs)

lemma insert_vectors_inserts {db : DB} {collection : String} {element_id : Int}
    {vector_fields : List (String × Value)} :
    ∀ s ∈ (insert_vectors db collection element_id vector_fields).1,
      s.is_insert = true := by
  intro s hs
  simp only [insert_vectors] at hs
  by_cases hvf : vector_fields.isEmpty
  · rw [if_pos hvf] at hs; simp at hs
  · rw [if_neg hvf] at hs
    cases hg : group_fields (column_to_table db collection) vector_fields with
    | error e => rw [hg] at hs; simp at hs
    | ok groups =>
      rw [hg] at hs
      exact insert_groups_inserts s hs

lemma ts_rows_inserts {table : String} {element_id : Int} {data : TimeSeries} :
    ∀ {idxs : List Nat},
      ∀ s ∈ (ts_rows table element_id data idxs).1, s.is_insert = true := by
  intro idxs
  induction idxs with
  | nil => intro s hs; simp [ts_rows] at hs
  | cons i rest ih =>
    intro s hs
    simp only [ts_rows] at hs
    cases hm : mapE (fun p => ts_cell p.2 i) data with
    | error e => rw [hm] at hs; simp at hs
    | ok cells =>
      rw [hm] at hs
      cases he : ts_rows table element_id data rest with
      | mk sts err =>
        rw [he] at hs
        simp at hs
        rcases hs with hs | hs
        · subst hs; rfl
        · exact ih s (by rw [he]; exact hs)

lemma insert_series_group_inserts {db : DB} {collection : String} {element_id : Int}
    {group : String} {data : TimeSeries} :
    ∀ s ∈ (insert_series_group db collection element_id group data).1,
      s.is_insert = true := by
  intro s hs
  simp only [insert_series_group] at hs
  by_cases hde : data.isEmpty
  · rw [if_pos hde] at hs; simp at hs
  · rw [if_neg hde] at hs
    by_cases hct : (get_time_series_tables db collection).contains
        (collection ++ "_time_series_" ++ group)
    · rw [if_pos hct] at hs
      cases data with
      | nil => simp at hs
      | cons p rest =>
        by_cases hrc : p.2.length = 0
        · simp only [hrc, if_pos rfl] at hs
          simp at hs
        · rw [if_neg hrc] at hs
          by_cases hany : ((p :: rest).any fun q => q.2.length ≠ p.2.length)
          · rw [if_pos hany] at hs; simp at hs
          · rw [if_neg hany] at hs
            exact ts_rows_inserts s hs
    · rw [if_neg hct] at hs; simp at hs

lemma insert_series_groups_inserts {db : DB} {collection : String} {element_id : Int} :
    ∀ {tss : List (String × TimeSeries)},
      ∀ s ∈ (insert_series_groups db collection element_id tss).1,
        s.is_insert = true := by
  intro tss
  induction tss with
  | nil => intro s hs; simp [insert_series_groups] at hs
  | cons g rest ih =>
    intro s hs
    obtain ⟨group, data⟩ := g
    simp only [insert_series_groups] at hs
    cases hg : insert_series_group db collection element_id group data with
    | mk sts err =>
      rw [hg] at hs
      cases err with
      | some e =>
        simp at hs
        exact insert_series_group_inserts s (by rw [hg]; exact hs)
      | none =>
        cases hrest : insert_series_groups db collection element_id rest with
        | mk sts2 err2 =>
          rw [hrest] at hs
          simp at hs
          rcases hs with hs | hs
          · exact insert_series_group_inserts s (by rw [hg]; exact hs)
          · exact ih s (by rw [hrest]; exact hs)

lemma insert_time_series_inserts {db : DB} {collection : String} {element_id : Int}
    {tss : List (String × TimeSeries)} :
    ∀ s ∈ (insert_time_series db collection element_id tss).1, s.is_insert = true := by
  intro s hs
  simp only [insert_time_series] at hs
  by_cases hte : tss.isEmpty
  · rw [if_pos hte] at hs; simp at hs
  · rw [if_neg hte] at hs
    exact insert_series_groups_inserts s hs

end Lemmas

/-- The kind name `validate_value_type` reports for a scalar value. -/
def value_kind : Value → String
  | .vint _ => "INTEGER"
  | .vfloat _ => "REAL"
  | .vtext _ => "TEXT"
  | .vblob _ => "BLOB"
  | _ => ""

/-- The compatibility table of claim C5, written from the spec's words
(§4.3): declared TEXT accepts only Text, INTEGER only Int64, REAL accepts
Float64 or Int64, BLOB only Blob. -/
def kind_accepted : String → Value → Bool
  | "TEXT", .vtext _ => true
  | "INTEGER", .vint _ => true
  | "REAL", .vfloat _ => true
  | "REAL", .vint _ => true
  | "BLOB", .vblob _ => true
  | _, _ => false

/-- Claim C5's acceptance rule, written from the spec's words: a column
with empty declared type is never validated; a foreign-key column is
exempt entirely; Null is always accepted; array values are not validated
here; for the four known declared types a mismatch per the compatibility
table fails with an error naming the column, the expected type and the
actual kind; any other declared type is never validated. -/
def validate_value_type_spec (db : DB) (table column : String) (value : Value) :
    Option DbError :=
  let declared := get_column_type db table column
  if declared = "" then none
  else if (get_foreign_keys db table).any (fun fk => fk.column = column) then none
  else if value = .vnull then none
  else if is_vector_value value then none
  else if declared = "TEXT" ∨ declared = "INTEGER" ∨ declared = "REAL" ∨ declared = "BLOB" then
    if kind_accepted declared value then none
    else some (.runtimeError ("Type mismatch for column " ++ column ++ ": expected " ++
      declared ++ " but got " ++ value_kind value))
  else none

/-- C5: `validate_value_type` accepts a scalar value for a column exactly
per the compatibility table (TEXT↦Text, INTEGER↦Int64, REAL↦Float64 or
Int64, BLOB↦Blob), always accepts Null, never validates a column with
empty or unknown declared type, exempts foreign-key columns entirely, and
on any mismatch deterministically fails with a type-mismatch error naming
the column, the expected type and the actual kind. -/
theorem validate_value_type_matches_spec (db : DB) (table column : String) (value : Value) :
    validate_value_type db table column value =
      validate_value_type_spec db table column value := by
  by_cases h1 : get_column_type db table column = ""
  · simp [validate_value_type, validate_value_type_spec, h1]
  · by_cases h2 : (get_foreign_keys db table).any (fun fk => fk.column = column)
    · simp [validate_value_type, validate_value_type_spec, h1, h2]
    · cases value <;>
        simp only [validate_value_type, validate_value_type_spec,
          validate_value_type.validate_scalar, is_vector_value, value_kind, h1, h2] <;>
        split_ifs <;> simp_all [kind_accepted]

/-- C10: the typed `Row` accessors are total — they return `none` when
the index is at or beyond the row's length, when the cell is Null, or
when the cell holds a different kind than requested; `is_null` is `true`
for every out-of-range index; only `operator[]` raises an out-of-range
error, and it succeeds on every in-range index. -/
theorem row_accessors_total (r : Row) (i : Nat) :
    (r.column_count ≤ i →
      r.get_int i = none ∧ r.get_double i = none ∧ r.get_string i = none ∧
      r.get_blob i = none ∧ r.is_null i = true ∧
      r.op_index i = .error (.outOfRange "Column index out of range")) ∧
    (∀ v, r.values.get? i = some v →
      r.op_index i = .ok v ∧
      (v = .vnull →
        r.get_int i = none ∧ r.get_double i = none ∧ r.get_string i = none ∧
        r.get_blob i = none) ∧
      ((∀ x, v ≠ .vint x) → r.get_int i = none) ∧
      ((∀ x, v ≠ .vfloat x) → r.get_double i = none) ∧
      ((∀ x, v ≠ .vtext x) → r.get_string i = none) ∧
      ((∀ x, v ≠ .vblob x) → r.get_blob i = none)) := by
  constructor
  · intro h
    have hge : i ≥ r.values.length := h
    have hnone : r.values.get? i = none := by
      rw [List.get?_eq_none]
      exact hge
    refine ⟨?_, ?_, ?_, ?_, ?_, ?_⟩ <;>
      simp [Row.get_int, Row.get_double, Row.get_string, Row.get_blob, Row.is_null,
        Row.op_index, hge, hnone]
  · intro v hv
    obtain ⟨hlt, -⟩ := List.get?_eq_some.mp hv
    have hge : ¬ i ≥ r.values.length := by omega
    rw [List.get?_eq_getElem?] at hv
    refine ⟨?_, ?_, ?_, ?_, ?_, ?_⟩
    · simp [Row.op_index, hge, hv]
    · intro hnull
      subst hnull
      simp [Row.get_int, Row.get_double, Row.get_string, Row.get_blob, Row.is_null, hge, hv]
    · intro hne
      cases v <;>
        simp_all [Row.get_int, Row.is_null, hge, hv]
    · intro hne
      cases v <;>
        simp_all [Row.get_double, Row.is_null, hge, hv]
    · intro hne
      cases v <;>
        simp_all [Row.get_string, Row.is_null, hge, hv]
    · intro hne
      cases v <;>
        simp_all [Row.get_blob, Row.is_null, hge, hv]

/-- Witness for C10 at a concrete row. -/
theorem row_accessors_total_witness :
    (Row.mk [Value.vint 3]).column_count ≤ 5 ∧
    (Row.mk [Value.vint 3]).get_string 5 = none ∧
    (Row.mk [Value.vint 3]).is_null 5 = true ∧
    (Row.mk [Value.vint 3]).values.get? 0 = some (Value.vint 3) ∧
    (Row.mk [Value.vint 3]).op_index 0 = .ok (Value.vint 3) ∧
    (Row.mk [Value.vint 3]).get_string 0 = none := by
  have h1 := (row_accessors_total (Row.mk [Value.vint 3]) 5).1 (by decide)
  have h2 := (row_accessors_total (Row.mk [Value.vint 3]) 0).2 (Value.vint 3) (by decide)
  exact ⟨by decide, h1.2.2.1, h1.2.2.2.2.1, by decide, h2.1,
    h2.2.2.2.2.1 (fun x h => Value.noConfusion h)⟩

/-- C8: every table-enumeration introspection operation (vector-table,
set-table and time-series-table listing by prefix) returns an empty list
— and, being guarded before any statement is executed, cannot fail — when
the connection is not open or when no table name matches the prefix. -/
theorem table_listing_empty (db : DB) (collection : String) :
    (db.isOpen = false →
      get_vector_tables db collection = [] ∧ get_set_tables db collection = [] ∧
      get_time_series_tables db collection = []) ∧
    ((∀ t ∈ db.master_tables,
        str_starts_with t (collection ++ "_vector_") = false) →
      get_vector_tables db collection = []) ∧
    ((∀ t ∈ db.master_tables,
        str_starts_with t (collection ++ "_set_") = false) →
      get_set_tables db collection = []) ∧
    ((∀ t ∈ db.master_tables,
        str_starts_with t (collection ++ "_time_series_") = false) →
      get_time_series_tables db collection = []) := by
  refine ⟨?_, ?_, ?_, ?_⟩
  · intro h
    simp [get_vector_tables, get_set_tables, get_time_series_tables, h]
  · intro h
    simp only [get_vector_tables]
    split_ifs with ho
    · exact List.filter_eq_nil_iff.mpr (by intro t ht; simp [h t ht])
    · rfl
  · intro h
    simp only [get_set_tables]
    split_ifs with ho
    · exact List.filter_eq_nil_iff.mpr (by intro t ht; simp [h t ht])
    · rfl
  · intro h
    simp only [get_time_series_tables]
    split_ifs with ho
    · exact List.filter_eq_nil_iff.mpr (by intro t ht; simp [h t ht])
    · rfl

/-- Witness for C8 at a concrete closed connection and a concrete open
connection with no matching table. -/
theorem table_listing_empty_witness :
    get_vector_tables (DB.mk false ["P_vector_g"] [] [] []) "P" = [] ∧
    get_vector_tables (DB.mk true ["Other"] [] [] []) "P" = [] := by
  refine ⟨((table_listing_empty (DB.mk false ["P_vector_g"] [] [] []) "P").1 rfl).1, ?_⟩
  exact (table_listing_empty (DB.mk true ["Other"] [] [] []) "P").2.1 (by decide)

/-- C4: when `column` is a declared foreign key of `table`,
`resolve_relation` maps a TextArray to an IntArray of equal length and
order, resolving each label independently; an empty-string label yields
the reserved sentinel without a lookup; a non-empty label whose lookup
fails makes the whole call fail with that label's not-found error; and
passing the resolved ids directly is observably equivalent (an IntArray
is returned unchanged). -/
theorem resolve_relation_textarray (db : DB) (table column : String)
    (fk : ForeignKeyInfo) (labels : List String)
    (hfk : (get_foreign_keys db table).find? (fun f => f.column = column) = some fk) :
    (∀ g : String → Int,
      (∀ l ∈ labels, l ≠ "" → get_element_id db fk.target_table l = .ok (g l)) →
      resolve_relation db table column (.vtextArr labels) =
        .ok (.vintArr (labels.map (fun l => if l = "" then i64Min else g l)))) ∧
    (∀ l e, l ∈ labels → l ≠ "" → get_element_id db fk.target_table l = .error e →
      ∃ e2 l2, l2 ∈ labels ∧ l2 ≠ "" ∧
        get_element_id db fk.target_table l2 = .error e2 ∧
        resolve_relation db table column (.vtextArr labels) = .error e2) ∧
    (∀ ids : List Int, resolve_relation db table column (.vintArr ids) = .ok (.vintArr ids)) := by
  refine ⟨?_, ?_, fun ids => resolve_relation_intArr⟩
  · intro g hg
    simp only [resolve_relation, hfk]
    rw [mapE_eq_map (g := fun l => if l = "" then i64Min else g l)]
    intro l hl
    by_cases hle : l = ""
    · simp [resolve_label, hle]
    · simp [resolve_label, hle, hg l hl hle]
  · intro l e hl hle hid
    have hrl : resolve_label db fk.target_table l = .error e := by
      simp [resolve_label, hle, hid]
    obtain ⟨e2, hmap, l2, hl2, hrl2⟩ := mapE_error_of_mem hl hrl
    have hl2ne : l2 ≠ "" := by
      intro hc
      rw [resolve_label, if_pos hc] at hrl2
      cases hrl2
    have hid2 : get_element_id db fk.target_table l2 = .error e2 := by
      rw [resolve_label, if_neg hl2ne] at hrl2
      exact hrl2
    refine ⟨e2, l2, hl2, hl2ne, hid2, ?_⟩
    simp only [resolve_relation, hfk, hmap]

/-- Witness for C4: a concrete foreign-key column resolving
`["A", "", "B"]` to `[1, sentinel, 2]` and passing an IntArray through. -/
theorem resolve_relation_textarray_witness :
    resolve_relation
      (DB.mk true ["T"] [] [("P", [ForeignKeyInfo.mk "T" "cid" "id"])]
        [(("T", "A"), [Value.vint 1]), (("T", "B"), [Value.vint 2])])
      "P" "cid" (.vtextArr ["A", "", "B"]) = .ok (.vintArr [1, i64Min, 2]) ∧
    resolve_relation
      (DB.mk true ["T"] [] [("P", [ForeignKeyInfo.mk "T" "cid" "id"])]
        [(("T", "A"), [Value.vint 1]), (("T", "B"), [Value.vint 2])])
      "P" "cid" (.vintArr [1, i64Min, 2]) = .ok (.vintArr [1, i64Min, 2]) := by
  have h := resolve_relation_textarray
    (DB.mk true ["T"] [] [("P", [ForeignKeyInfo.mk "T" "cid" "id"])]
      [(("T", "A"), [Value.vint 1]), (("T", "B"), [Value.vint 2])])
    "P" "cid" (ForeignKeyInfo.mk "T" "cid" "id") ["A", "", "B"] rfl
  refine ⟨?_, h.2.2 [1, i64Min, 2]⟩
  have h1 := h.1 (fun l => if l = "A" then 1 else 2) ?_
  · simpa using h1
  · intro l hl hne
    rcases List.mem_cons.mp hl with h2 | h2
    · subst h2; rfl
    rcases List.mem_cons.mp h2 with h3 | h3
    · exact absurd h3 hne
    rcases List.mem_cons.mp h3 with h4 | h4
    · subst h4; rfl
    · simp at h4

/-- C6: `create_element` fails before executing any statement — the trace
is empty and no element id is returned — when the connection is not open,
the table name is empty, the field list is empty, or classification
leaves no scalar field (all supplied fields are array-valued). -/
theorem create_element_preconditions (db : DB) (engine : Engine) (table : String)
    (fields : List (String × Value)) (tss : List (String × TimeSeries)) :
    (db.isOpen = false → create_element db engine table fields tss =
      ([], .error (.runtimeError "Database is not open"))) ∧
    (db.isOpen = true → table = "" → create_element db engine table fields tss =
      ([], .error (.runtimeError "Table name cannot be empty"))) ∧
    (db.isOpen = true → table ≠ "" → fields = [] →
      create_element db engine table fields tss =
        ([], .error (.runtimeError "Fields cannot be empty"))) ∧
    (db.isOpen = true → table ≠ "" → fields ≠ [] →
      (∀ p ∈ fields, is_vector_value p.2 = true) →
      create_element db engine table fields tss =
        ([], .error (.runtimeError "At least one scalar field is required"))) := by
  refine ⟨?_, ?_, ?_, ?_⟩
  · intro h
    simp [create_element, h]
  · intro ho ht
    simp [create_element, ho, ht]
  · intro ho ht hf
    subst hf
    simp [create_element, ho, ht]
  · intro ho ht hf hall
    have hclass : classify_fields db table fields = .ok ([], fields) := by
      have : ∀ (fs : List (String × Value)) (acc1 acc2 : List (String × Value)),
          (∀ p ∈ fs, is_vector_value p.2 = true) →
          foldE (classify_step db table) (acc1, acc2) fs = .ok (acc1, acc2 ++ fs) := by
        intro fs
        induction fs with
        | nil => intro acc1 acc2 _; simp [foldE]
        | cons p rest ih =>
          intro acc1 acc2 h
          simp only [foldE, classify_step, h p (List.mem_cons_self p rest), if_pos]
          rw [ih acc1 (acc2 ++ [p]) (fun q hq => h q (List.mem_cons_of_mem p hq))]
          simp
      simpa [classify_fields] using this fields [] [] hall
    have hfe : fields.isEmpty = false := by
      cases fields
      · exact absurd rfl hf
      · rfl
    simp [create_element, ho, ht, hfe, hclass]

/-- Witness for C6 at concrete calls hitting each precondition. -/
theorem create_element_preconditions_witness :
    create_element (DB.mk false [] [] [] []) ⟨1⟩ "T" [("label", .vtext "x")] [] =
      ([], .error (.runtimeError "Database is not open")) ∧
    create_element (DB.mk true [] [] [] []) ⟨1⟩ "" [("label", .vtext "x")] [] =
      ([], .error (.runtimeError "Table name cannot be empty")) ∧
    create_element (DB.mk true [] [] [] []) ⟨1⟩ "T" [] [] =
      ([], .error (.runtimeError "Fields cannot be empty")) ∧
    create_element (DB.mk true [] [] [] []) ⟨1⟩ "T" [("a", .vintArr [1])] [] =
      ([], .error (.runtimeError "At least one scalar field is required")) :=
  ⟨(create_element_preconditions (DB.mk false [] [] [] []) ⟨1⟩ "T"
      [("label", .vtext "x")] []).1 rfl,
   (create_element_preconditions (DB.mk true [] [] [] []) ⟨1⟩ ""
      [("label", .vtext "x")] []).2.1 rfl rfl,
   (create_element_preconditions (DB.mk true [] [] [] []) ⟨1⟩ "T" [] []).2.2.1
      rfl (by decide) rfl,
   (create_element_preconditions (DB.mk true [] [] [] []) ⟨1⟩ "T"
      [("a", .vintArr [1])] []).2.2.2 rfl (by decide) (by decide)
      (by intro p hp; rcases List.mem_cons.mp hp with h | h
          · subst h; rfl
          · simp at h)⟩

/-- C7: `create_element` never issues a transaction begin/commit/rollback
statement itself — every statement it executes is a single-row INSERT —
and when the scalar INSERT has succeeded and a later vector-insertion or
time-series-insertion step fails, the call fails with that error while
the scalar INSERT (and any rows written before the failure) remain in the
executed trace, with no rollback appended. -/
theorem create_element_no_auto_transaction (db : DB) (engine : Engine) (table : String)
    (fields : List (String × Value)) (tss : List (String × TimeSeries)) :
    (∀ s ∈ (create_element db engine table fields tss).1, s.is_insert = true) ∧
    (∀ scalar_fields vector_fields values e,
      classify_fields db table fields = .ok (scalar_fields, vector_fields) →
      db.isOpen = true → table ≠ "" → fields ≠ [] → scalar_fields ≠ [] →
      mapE (fun p => to_scalar_value p.2) scalar_fields = .ok values →
      ((insert_vectors db table (last_insert_rowid db engine) vector_fields).2 = some e ∨
       ((insert_vectors db table (last_insert_rowid db engine) vector_fields).2 = none ∧
        (insert_time_series db table (last_insert_rowid db engine) tss).2 = some e)) →
      ∃ rest, create_element db engine table fields tss =
        (Stmt.insertStmt table (scalar_fields.map Prod.fst) values :: rest, .error e)) := by
  constructor
  · intro s hs
    cases ho : db.isOpen with
    | false => simp [create_element, ho] at hs
    | true =>
      by_cases ht : table = ""
      · simp [create_element, ho, ht] at hs
      · by_cases hfe : fields.isEmpty
        · simp [create_element, ho, ht, hfe] at hs
        · cases hcl : classify_fields db table fields with
          | error e => simp [create_element, ho, ht, hfe, hcl] at hs
          | ok p =>
            obtain ⟨sc, vf⟩ := p
            by_cases hsce : sc.isEmpty
            · simp [create_element, ho, ht, hfe, hcl, hsce] at hs
            · cases hmE : mapE (fun p => to_scalar_value p.2) sc with
              | error e => simp [create_element, ho, ht, hfe, hcl, hsce, hmE] at hs
              | ok values =>
                cases hv : insert_vectors db table (last_insert_rowid db engine) vf with
                | mk vsts verr =>
                  cases verr with
                  | some e =>
                    simp [create_element, ho, ht, hfe, hcl, hsce, hmE, hv] at hs
                    rcases hs with hs | hs
                    · subst hs; rfl
                    · exact insert_vectors_inserts s (by rw [hv]; exact hs)
                  | none =>
                    cases hts : insert_time_series db table (last_insert_rowid db engine)
                        tss with
                    | mk tsts terr =>
                      cases terr <;>
                        · simp [create_element, ho, ht, hfe, hcl, hsce, hmE, hv, hts] at hs
                          rcases hs with hs | hs | hs
                          · subst hs; rfl
                          · exact insert_vectors_inserts s (by rw [hv]; exact hs)
                          · exact insert_time_series_inserts s (by rw [hts]; exact hs)
  · intro sc vf values e hcl ho ht hf hsc hmE hfail
    have hfe : ¬ fields.isEmpty = true := by
      cases fields
      · exact absurd rfl hf
      · simp
    have hsce : ¬ sc.isEmpty = true := by
      cases sc
      · exact absurd rfl hsc
      · simp
    rcases hfail with hfail | ⟨hvok, hfail⟩
    · cases hv : insert_vectors db table (last_insert_rowid db engine) vf with
      | mk vsts verr =>
        rw [hv] at hfail
        simp at hfail
        subst hfail
        exact ⟨vsts, by simp [create_element, ho, ht, hfe, hcl, hsce, hmE, hv]⟩
    · cases hv : insert_vectors db table (last_insert_rowid db engine) vf with
      | mk vsts verr =>
        rw [hv] at hvok
        simp at hvok
        subst hvok
        cases hts : insert_time_series db table (last_insert_rowid db engine) tss with
        | mk tsts terr =>
          rw [hts] at hfail
          simp at hfail
          subst hfail
          exact ⟨vsts ++ tsts,
            by simp [create_element, ho, ht, hfe, hcl, hsce, hmE, hv, hts]⟩

/-- Witness for C7: the scalar INSERT for field `label` remains at the
head of the trace although the vector phase fails on an unknown vector
column; the error is surfaced and no transaction statement appears. -/
theorem create_element_no_auto_transaction_witness :
    (∃ rest, create_element (DB.mk true [] [] [] []) ⟨5⟩ "C"
        [("label", .vtext "x"), ("bogus", .vintArr [1])] [] =
      (Stmt.insertStmt "C" ["label"] [.vtext "x"] :: rest,
       .error (.runtimeError "Vector column not found in schema: bogus"))) ∧
    Stmt.is_insert (Stmt.insertStmt "C" ["label"] [.vtext "x"]) = true := by
  have h := create_element_no_auto_transaction (DB.mk true [] [] [] []) ⟨5⟩ "C"
    [("label", .vtext "x"), ("bogus", .vintArr [1])] []
  refine ⟨h.2 [("label", .vtext "x")] [("bogus", .vintArr [1])] [.vtext "x"]
    (.runtimeError "Vector column not found in schema: bogus")
    rfl rfl (by decide) (by decide) (by decide) rfl (Or.inl rfl), ?_⟩
  exact h.1 (Stmt.insertStmt "C" ["label"] [.vtext "x"])
    (by
      obtain ⟨rest, hr⟩ := h.2 [("label", .vtext "x")] [("bogus", .vintArr [1])]
        [.vtext "x"] (.runtimeError "Vector column not found in schema: bogus")
        rfl rfl (by decide) (by decide) (by decide) rfl (Or.inl rfl)
      rw [hr]
      exact List.mem_cons_self _ _)

/-- An open connection whose schema has the vector table `C_vector_g`
with data columns `a` and `b`. -/
def db_vec : DB :=
  ⟨true, ["C_vector_g"],
   [("C_vector_g",
     [("id", "INTEGER"), ("vector_index", "INTEGER"), ("a", "INTEGER"), ("b", "REAL")])],
   [], []⟩

/-- C3: for a vector group of common length `n > 0`, `insert_vectors`
executes exactly `n` single-row INSERTs into the group's backing table,
each binding the element id — row `i` additionally binding
`vector_index = i + 1` for a vector table and no index column for a set
table — followed by each field's `i`-th (resolved, sentinel-translated)
element; a group whose arrays all have length zero inserts zero rows and
does not error. -/
theorem vector_group_rows (db : DB) (collection : String) (element_id : Int)
    (vector_fields fields resolved : List (String × Value)) (table : String) (n : Nat)
    (hgroup : group_fields (column_to_table db collection) vector_fields =
      .ok [(table, fields)])
    (hsz : ∀ p ∈ fields, get_vector_size p.2 = n)
    (hres : resolve_fields db table fields = .ok resolved) :
    (0 < n → insert_vectors db collection element_id vector_fields =
      ((List.range n).map (vector_row ((get_set_tables db collection).contains table)
        table element_id resolved), none)) ∧
    (n = 0 → insert_vectors db collection element_id vector_fields = ([], none)) := by
  constructor
  · exact fun hn => insert_vectors_single_ok hgroup hsz hres hn
  · intro hn
    subst hn
    have hvf : vector_fields.isEmpty = false := by
      cases vector_fields with
      | nil => simp [group_fields, foldE] at hgroup
      | cons a as => rfl
    simp only [insert_vectors, hvf, Bool.false_eq_true, if_false, hgroup]
    rw [insert_groups_single, insert_group_zero hsz]

/-- Witness for C3: a concrete two-field group of length 2 yields exactly
the two described rows, and a zero-length group yields none. -/
theorem vector_group_rows_witness :
    insert_vectors db_vec "C" 7 [("a", .vintArr [4, 5]), ("b", .vfloatArr [10, 20])] =
      ([.insertStmt "C_vector_g" ["id", "vector_index", "a", "b"]
          [.vint 7, .vint 1, .vint 4, .vfloat 10],
        .insertStmt "C_vector_g" ["id", "vector_index", "a", "b"]
          [.vint 7, .vint 2, .vint 5, .vfloat 20]], none) ∧
    insert_vectors db_vec "C" 7 [("a", .vintArr [])] = ([], none) := by
  constructor
  · have h := (vector_group_rows db_vec "C" 7
      [("a", .vintArr [4, 5]), ("b", .vfloatArr [10, 20])]
      [("a", .vintArr [4, 5]), ("b", .vfloatArr [10, 20])]
      [("a", .vintArr [4, 5]), ("b", .vfloatArr [10, 20])] "C_vector_g" 2
      rfl (by decide) rfl).1 (by decide)
    rw [h]
    rfl
  · exact (vector_group_rows db_vec "C" 7 [("a", .vintArr [])] [("a", .vintArr [])]
      [("a", .vintArr [])] "C_vector_g" 0 rfl (by decide) rfl).2 rfl

/-- C9: in `insert_vectors`, an Int64 array element equal to the minimum
int64 value (the null sentinel) is bound as Null in the emitted row —
also when it was supplied directly by the caller in an IntArray field,
since an IntArray passes through relation resolution unchanged. -/
theorem intarr_sentinel_binds_null (db : DB) (collection : String) (element_id : Int)
    (vector_fields fields resolved : List (String × Value)) (table name : String)
    (xs : List Int) (n k i : Nat)
    (hgroup : group_fields (column_to_table db collection) vector_fields =
      .ok [(table, fields)])
    (hsz : ∀ p ∈ fields, get_vector_size p.2 = n)
    (hres : resolve_fields db table fields = .ok resolved)
    (hk : fields.get? k = some (name, .vintArr xs))
    (hx : xs.get? i = some i64Min)
    (hi : i < n) :
    ∃ cols vals,
      (insert_vectors db collection element_id vector_fields).1.get? i =
        some (.insertStmt table cols vals) ∧
      vals.get? ((if (get_set_tables db collection).contains table then 1 else 2) + k) =
        some Value.vnull := by
  have hn : 0 < n := by omega
  have htr := @insert_vectors_single_ok db collection element_id vector_fields fields
    resolved table n hgroup hsz hres hn
  -- the resolved list still holds the caller's IntArray at position k
  have hstep := mapE_get? hres k (name, .vintArr xs) hk
  obtain ⟨b, hb, hstepb⟩ := hstep
  rw [resolve_relation_intArr] at hstepb
  cases hstepb
  set is_set := (get_set_tables db collection).contains table with hset
  refine ⟨(if is_set then ["id"] else ["id", "vector_index"]) ++ resolved.map Prod.fst,
    (if is_set then [Value.vint element_id]
      else [Value.vint element_id, Value.vint (Int.ofNat i + 1)]) ++
      resolved.map (fun p => bind_cell (cell_at p.2 i)), ?_, ?_⟩
  · rw [htr]
    simp only [List.get?_map, List.get?_range hi, Option.map_some]
    rfl
  · have hbase : (if is_set then [Value.vint element_id]
        else [Value.vint element_id, Value.vint (Int.ofNat i + 1)]).length =
        if is_set then 1 else 2 := by
      cases is_set <;> rfl
    rw [List.get?_append_right (by rw [hbase]; cases is_set <;> simp)]
    rw [hbase]
    have hsub : ((if is_set then 1 else 2) + k) - (if is_set then 1 else 2) = k := by omega
    rw [hsub, List.get?_map, hb]
    have hx2 : xs[i]? = some i64Min := by
      rw [← List.get?_eq_getElem?]
      exact hx
    simp [cell_at, bind_cell, hx2]

/-- C1 (code bug): two vectors of unequal lengths 0 and 3 in the same
group pass the size validation — the loop treats a running size of 0 as
"not yet set", so after the empty array the group size is simply taken
from the next array — no grouping error naming the table is raised, and
the per-index insert loop then reads index 0 of the empty array, which is
an out-of-bounds `std::vector::operator[]` access (undefined behavior in
the C++ source) instead of the grouping failure the spec requires. -/
theorem insert_vectors_mismatch_ub :
    group_vec_size "C_vector_g"
      [("a", Value.vintArr []), ("b", Value.vfloatArr [10, 20, 30])] = .ok 3 ∧
    insert_vectors db_vec "C" 1 [("a", .vintArr []), ("b", .vfloatArr [10, 20, 30])] =
      ([], some DbError.oob) :=
  ⟨rfl, rfl⟩

/-- An open connection whose schema has the time-series table
`C_time_series_g` with data columns `a` and `b`. -/
def db_ts : DB :=
  ⟨true, ["C_time_series_g"],
   [("C_time_series_g", [("id", "INTEGER"), ("a", "REAL"), ("b", "REAL")])],
   [], []⟩

/-- Counterexample to C2 as stated: a series whose two columns have
unequal lengths (0 and 1) raises no error at all — because the row count
is taken from the first column in map order and a zero count skips the
series before the length check — where the claim requires a "columns must
have same length" failure. -/
theorem time_series_unequal_lengths_skipped :
    insert_time_series db_ts "C" 1 [("g", [("a", []), ("b", [Value.vint 1])])] =
      ([], none) ∧
    ([] : List Value).length ≠ [Value.vint 1].length :=
  ⟨rfl, by decide⟩

/-- C2 (amended): the row count of a series is taken from its first
column in map-iteration order; when that count is zero the series is
skipped without validation (no rows, no error); when it is nonzero, every
other column must have the same length, otherwise the call fails with the
"columns must have same length" error before inserting any row of that
series; a single-group `insert_time_series` call behaves exactly as this
per-group body. -/
theorem time_series_rowcount_validation (db : DB) (collection : String)
    (element_id : Int) (group col0 : String) (vals0 : List Value) (rest : TimeSeries)
    (htable : (get_time_series_tables db collection).contains
      (collection ++ "_time_series_" ++ group) = true) :
    (vals0 = [] →
      insert_series_group db collection element_id group ((col0, vals0) :: rest) =
        ([], none)) ∧
    (vals0 ≠ [] → (∃ p ∈ rest, p.2.length ≠ vals0.length) →
      insert_series_group db collection element_id group ((col0, vals0) :: rest) =
        ([], some (.runtimeError "Time series columns must have same length"))) ∧
    insert_time_series db collection element_id [(group, (col0, vals0) :: rest)] =
      insert_series_group db collection element_id group ((col0, vals0) :: rest) := by
  have hmem : collection ++ "_time_series_" ++ group ∈
      get_time_series_tables db collection := by
    simpa using htable
  refine ⟨?_, ?_, ?_⟩
  · intro h0
    subst h0
    simp [insert_series_group, hmem]
  · intro hne hex
    have h0 : ¬ (vals0.length = 0) := by
      simpa [List.length_eq_zero] using hne
    simp [insert_series_group, hmem, h0]
    intro hall
    obtain ⟨p, hp, hlen⟩ := hex
    exact absurd (hall p.1 p.2 (by simpa using hp)) (by simpa using hlen)
  · simp only [insert_time_series, List.isEmpty_cons, Bool.false_eq_true, if_false]
    cases hg : insert_series_group db collection element_id group
        ((col0, vals0) :: rest) with
    | mk sts err =>
      cases err <;> simp [insert_series_groups, hg]

/-- Witness for the amended C2: the zero-first-column series is skipped
and a nonzero-first-column series with a shorter second column fails. -/
theorem time_series_rowcount_validation_witness :
    insert_series_group db_ts "C" 1 "g" [("a", []), ("b", [Value.vint 1])] =
      ([], none) ∧
    insert_series_group db_ts "C" 1 "g"
        [("a", [Value.vint 1, Value.vint 2]), ("b", [Value.vint 3])] =
      ([], some (.runtimeError "Time series columns must have same length")) := by
  constructor
  · exact (time_series_rowcount_validation db_ts "C" 1 "g" "a" []
      [("b", [Value.vint 1])] rfl).1 rfl
  · exact (time_series_rowcount_validation db_ts "C" 1 "g" "a"
      [Value.vint 1, Value.vint 2] [("b", [Value.vint 3])] rfl).2.1 (by decide)
      ⟨("b", [Value.vint 3]), by decide⟩

/-- Witness for C9: a caller-supplied IntArray containing `INT64_MIN` at
index 0 produces a row whose corresponding cell is Null. -/
theorem intarr_sentinel_binds_null_witness :
    ∃ cols vals,
      (insert_vectors db_vec "C" 7 [("a", .vintArr [i64Min, 5])]).1.get? 0 =
        some (.insertStmt "C_vector_g" cols vals) ∧
      vals.get? ((if (get_set_tables db_vec "C").contains "C_vector_g" then 1 else 2) + 0) =
        some Value.vnull :=
  intarr_sentinel_binds_null db_vec "C" 7 [("a", .vintArr [i64Min, 5])]
    [("a", .vintArr [i64Min, 5])] [("a", .vintArr [i64Min, 5])] "C_vector_g" "a"
    [i64Min, 5] 2 0 0 rfl (by decide) rfl rfl rfl (by decide)

end Psr
